import Mathlib

/-!
Shallow Lean embedding of the pycape client (capeprivacy/pycape).

The modules embedded here are `pycape/attestation.py`, `pycape/cape.py`,
`pycape/cape_encrypt.py` and `pycape/function_ref.py`.  Python byte strings
are modelled as `List Nat` (each entry one byte), Python `str` values as
`List Char`.  Calls into external cryptography libraries (COSE signature
checks, X.509 chain validation, AES-GCM, RSA-OAEP, HPKE sealing) are
modelled as oracle fields of the inputs or as abstract backend functions:
their outcome is data the embedded code branches on, exactly where the
Python code branches on the library call result.  Fallible Python code is
embedded with `Except`; mutation of `self` fields is explicit state
passing; the set of currently open websockets is tracked in a `World`
value so that resource-leak statements are expressible.
-/

/-- Decidable equality of Except values, used to evaluate the embedded
    fallible functions on concrete inputs. -/
instance {ε α : Type} [DecidableEq ε] [DecidableEq α] : DecidableEq (Except ε α) := fun x y =>
  match x, y with
  | .ok a, .ok b =>
    if h : a = b then .isTrue (by rw [h])
    else .isFalse (by intro he; exact h (Except.ok.inj he))
  | .error a, .error b =>
    if h : a = b then .isTrue (by rw [h])
    else .isFalse (by intro he; exact h (Except.error.inj he))
  | .ok _, .error _ => .isFalse (by intro he; exact Except.noConfusion he)
  | .error _, .ok _ => .isFalse (by intro he; exact Except.noConfusion he)

/-- Python bytes: a list of byte values. -/
abbrev Bytes := List Nat

/-- Python str: a list of characters. -/
abbrev Str := List Char

namespace PyStr

/-- Lowercase a single character (ASCII, as used by str comparison helpers). -/
def lowerChar (c : Char) : Char :=
  if 'A' ≤ c ∧ c ≤ 'Z' then Char.ofNat (c.toNat + 32) else c

/-- Lowercase an ASCII string, modelling Python str.lower(). -/
def lower (s : Str) : Str := s.map lowerChar

/-- Python str.split on the separator character, keeping empty pieces:
    the result is never empty, and joining it with the separator restores
    the input. -/
def splitOn (sep : Char) : Str → List Str
  | [] => [[]]
  | c :: rest =>
    if c = sep then [] :: splitOn sep rest
    else
      match splitOn sep rest with
      | [] => [[c]]
      | piece :: pieces => (c :: piece) :: pieces

end PyStr

namespace B64

/-- Value of one base64 alphabet character (standard alphabet). -/
def charVal (c : Char) : Option Nat :=
  if 'A' ≤ c ∧ c ≤ 'Z' then some (c.toNat - 65)
  else if 'a' ≤ c ∧ c ≤ 'z' then some (c.toNat - 97 + 26)
  else if '0' ≤ c ∧ c ≤ '9' then some (c.toNat - 48 + 52)
  else if c = '+' then some 62
  else if c = '/' then some 63
  else none

/-- Decode one group of up to four base64 values into bytes. -/
def chunk : List Nat → Bytes
  | [a, b, c, d] => [a * 4 + b / 16, b % 16 * 16 + c / 4, c % 4 * 64 + d]
  | [a, b, c] => [a * 4 + b / 16, b % 16 * 16 + c / 4]
  | [a, b] => [a * 4 + b / 16]
  | _ => []

/-- Decode a list of base64 values, four at a time. -/
def decodeVals : List Nat → Bytes
  | a :: b :: c :: d :: rest => chunk [a, b, c, d] ++ decodeVals rest
  | rest => chunk rest

/-- Model of Python base64.b64decode with validate=False: characters
    outside the alphabet are discarded, padding terminates the data, and a
    leftover group of one value is an error (binascii.Error). -/
def b64decode (s : Str) : Option Bytes :=
  let kept := s.filter fun c => (charVal c).isSome ∨ c = '='
  let body := kept.takeWhile (· ≠ '=')
  let vals := body.filterMap charVal
  if vals.length % 4 = 1 then none else some (decodeVals vals)

end B64

namespace Hex

/-- One lowercase hex digit. -/
def digit (n : Nat) : Char :=
  if n < 10 then Char.ofNat (48 + n) else Char.ofNat (87 + n)

/-- Model of Python bytes.hex(): lowercase hex rendering of a byte string. -/
def ofBytes (bs : Bytes) : Str :=
  bs.flatMap fun b => [digit (b % 256 / 16), digit (b % 256 % 16)]

end Hex

/-- Model of the CBOR-decoded attestation payload map (the inner document of
    the COSE Sign1 envelope).  Optional fields are `Option`; `pcrs` maps a
    PCR index to the measurement bytes recorded in the document. -/
structure AttDoc where
  certificate : Option Bytes
  cabundle : Option (List Bytes)
  public_key : Option Bytes
  user_data : Option Bytes
  pcrs : List (Str × Bytes)
  nonce : Option Bytes
deriving Repr, DecidableEq

/-- Model of a raw attestation byte string together with the outcomes of the
    external library calls the Python code makes on it: `decoded` is the
    result of the two cbor2.loads calls (none models a decode exception),
    `sigOk` is the verdict of the COSE Sign1 signature check performed by
    verify_attestation_signature over the document certificate, and
    `chainOk` is the verdict of the OpenSSL X509 store validation performed
    by verify_cert_chain against the caller root certificate. -/
structure RawAttestation where
  decoded : Option AttDoc
  sigOk : Bool
  chainOk : Bool
deriving Repr, DecidableEq

namespace AttestationPy

/-- Errors raised by pycape/attestation.py, by raising site. -/
inductive AttError
  | malformedMessage
  | malformedAttestation
  | invalidSignature
  | chainVerificationFailed
deriving Repr, DecidableEq

/-- Embedding of _check_wellformed_attestation for the expected keys
    certificate, cabundle, public_key: raises on the first missing key. -/
def check_wellformed_attestation (doc : AttDoc) : Except AttError Unit :=
  if doc.certificate.isNone then .error .malformedAttestation
  else if doc.cabundle.isNone then .error .malformedAttestation
  else if doc.public_key.isNone then .error .malformedAttestation
  else .ok ()

/-- Embedding of verify_attestation_signature: the EC key reconstruction and
    COSE verification are the library calls modelled by the sigOk oracle. -/
def verify_attestation_signature (att : RawAttestation) : Except AttError Unit :=
  if att.sigOk then .ok () else .error .invalidSignature

/-- Embedding of verify_cert_chain: the X509 store validation is the library
    call modelled by the chainOk oracle (the root certificate and cabundle
    are folded into that verdict). -/
def verify_cert_chain (att : RawAttestation) : Except AttError Unit :=
  if att.chainOk then .ok () else .error .chainVerificationFailed

/-- Embedding of parse_attestation from pycape/attestation.py: cbor decode,
    well-formedness check on certificate/cabundle/public_key, signature
    verification, certificate-chain verification, then the pair
    (public_key, user_data) is returned.  The function takes no expected
    nonce and no PCR policy. -/
def parse_attestation (att : RawAttestation) : Except AttError (Bytes × Option Bytes) := do
  match att.decoded with
  | none => .error .malformedMessage
  | some doc =>
    check_wellformed_attestation doc
    match doc.certificate, doc.cabundle, doc.public_key with
    | some _doc_cert, some _cabundle, some public_key =>
      verify_attestation_signature att
      verify_cert_chain att
      .ok (public_key, doc.user_data)
    | _, _, _ => .error .malformedAttestation

end AttestationPy

namespace AttestMod

/-- Session-layer errors of pycape/cape.py, one constructor per raising
    site, together with the error classes of the spec taxonomy that the
    underscored attestation module raises. -/
inductive CapeError
  | dialError
  | wsError
  | remoteError (msg : Str)
  | malformedResponse
  | b64Error
  | malformedMessage
  | malformedAttestation
  | invalidSignature
  | chainVerificationFailed
  | replayDetected
  | pcrMismatch
  | checksumMissing
  | checksumMismatch
  | typeError
  | valueError
  | jsonError
  | attributeNoneError
  | transportClosed
deriving Repr, DecidableEq

/-- Modelled from the spec: the module pycape/_attestation.py imported by
    pycape/cape.py is absent from the sources, so its verify_nonce is taken
    from spec section 4.2: when the document carries an echoed nonce it must
    equal the expected nonce exactly, else ReplayDetected. -/
def verify_nonce (expected : Bytes) (doc : AttDoc) : Except CapeError Unit :=
  match doc.nonce with
  | none => .ok ()
  | some echoed => if echoed = expected then .ok () else .error .replayDetected

/-- Modelled from the spec: pycape/_attestation.py is absent from the
    sources, so its verify_pcrs follows spec section 4.2: for every index
    present in the policy, the document measurement at that index must be a
    member of the accepted set of hex values, and absence of a required
    index in the document is also a failure. -/
def verify_pcrs (policy : List (Str × List Str)) (doc : AttDoc) : Except CapeError Unit :=
  if policy.all fun entry =>
      match doc.pcrs.lookup entry.1 with
      | none => false
      | some measurement => entry.2.contains (Hex.ofBytes measurement)
  then .ok ()
  else .error .pcrMismatch

/-- Modelled from the spec: pycape/_attestation.py is absent from the
    sources (only its test and its callers in cape.py remain), so its
    parse_attestation follows spec section 4.2 and the shape its test and
    callers rely on: decode the signed envelope and payload, check the
    required fields, verify the signature, verify the certificate chain,
    verify the echoed nonce against the expected one when given, and return
    the whole document map.  PCR verification is exposed separately as
    verify_pcrs, which cape.py bootstrap calls after this function. -/
def parse_attestation (att : RawAttestation) (nonce : Option Bytes) :
    Except CapeError AttDoc := do
  match att.decoded with
  | none => .error .malformedMessage
  | some doc =>
    if doc.certificate.isNone ∨ doc.cabundle.isNone ∨ doc.public_key.isNone then
      .error .malformedAttestation
    else
      if !att.sigOk then .error .invalidSignature
      else if !att.chainOk then .error .chainVerificationFailed
      else
        match nonce with
        | none => .ok doc
        | some expected => do
          verify_nonce expected doc
          .ok doc

end AttestMod

namespace Session

open AttestMod

/-- External resource accounting: the websocket handles currently open.
    Dialing allocates a fresh id and adds it to openSockets; closing a
    handle removes its id. -/
structure World where
  nextId : Nat
  openSockets : List Nat
deriving Repr, DecidableEq

/-- Embedding of the mutable fields of _EnclaveContext that bootstrap and
    close create and destroy: self._websocket (the id of the open handle,
    or none) and self._public_key. -/
structure EnclaveContext where
  websocket : Option Nat
  public_key : Option Bytes
deriving Repr, DecidableEq

/-- Embedding of _generate_nonce from pycape/cape.py: a string of decimal
    digits of the given length, one random.randint(0, 9) draw per position
    (modelled as an arbitrary draw reduced mod 10), joined and encoded to
    ASCII bytes. -/
def generate_nonce (length : Nat) (draws : Nat → Nat) : Bytes :=
  (List.range length).map fun i => 48 + draws i % 10

/-- Errors the authenticate exchange can raise: transport failures on
    send/recv, and the _parse_wss_response failures on the reply. -/
inductive WsError
  | connectionClosed
  | remoteError (msg : Str)
  | malformedResponse
  | jsonError
  | b64Error
deriving Repr, DecidableEq

/-- The session-layer error each authenticate failure surfaces as. -/
def WsError.toCapeError : WsError → CapeError
  | .connectionClosed => .wsError
  | .remoteError m => .remoteError m
  | .malformedResponse => .malformedResponse
  | .jsonError => .jsonError
  | .b64Error => .b64Error

/-- Outcomes of the external calls bootstrap makes, in call order: the
    websockets.connect dial, the randint draws consumed by _generate_nonce,
    the authenticate send/recv plus _parse_wss_response of the reply, and
    the library-call oracle for the received attestation bytes. -/
structure BootstrapEnv where
  dialOk : Bool
  entropy : Nat → Nat
  authResponse : Except WsError Bytes
  attestation : RawAttestation

/-- Embedding of _EnclaveContext.close: when a websocket handle is present
    it is closed and the field cleared, and the public key field is cleared
    unconditionally.  Total, raising no error from any state. -/
def ctxClose (ctx : EnclaveContext) (w : World) : EnclaveContext × World :=
  match ctx.websocket with
  | some sid =>
    (⟨none, none⟩, { w with openSockets := w.openSockets.filter (· ≠ sid) })
  | none => (⟨none, none⟩, w)

/-- Embedding of _EnclaveContext.bootstrap: dial the endpoint (assigning
    self._websocket), generate a nonce, run the authenticate exchange, parse
    the attestation response with the expected nonce, store the document
    public key, then verify PCRs when a policy was supplied.  Every failure
    after the dial returns with the websocket still assigned and open: the
    Python code has no handler closing it. -/
def bootstrap (env : BootstrapEnv) (pcrs : Option (List (Str × List Str)))
    (ctx : EnclaveContext) (w : World) :
    Except CapeError AttDoc × EnclaveContext × World :=
  if !env.dialOk then (.error .dialError, ctx, w)
  else
    let sid := w.nextId
    let w1 : World := ⟨w.nextId + 1, sid :: w.openSockets⟩
    let ctx1 : EnclaveContext := { ctx with websocket := some sid }
    let nonce := generate_nonce 16 env.entropy
    match env.authResponse with
    | .error e => (.error e.toCapeError, ctx1, w1)
    | .ok _raw =>
      match AttestMod.parse_attestation env.attestation (some nonce) with
      | .error e => (.error e, ctx1, w1)
      | .ok doc =>
        let ctx2 : EnclaveContext := { ctx1 with public_key := doc.public_key }
        match pcrs with
        | none => (.ok doc, ctx2, w1)
        | some policy =>
          match AttestMod.verify_pcrs policy doc with
          | .error e => (.error e, ctx2, w1)
          | .ok _ => (.ok doc, ctx2, w1)

/-- Model of the JSON object decoded from attestation user_data by cape.py:
    an optional base64 func_checksum string and an optional base64 key. -/
structure UserDataDict where
  func_checksum : Option Str
  key : Option Str
deriving Repr, DecidableEq

/-- Inner object of a websocket response message. -/
structure WsResponseInner where
  message : Option Str
deriving Repr, DecidableEq

/-- Model of the JSON object decoded from a websocket response: an error
    field when the key error is present, and the message wrapper. -/
structure WsResponse where
  error : Option Str
  message : Option WsResponseInner
deriving Repr, DecidableEq

/-- Embedding of _parse_wss_response: json decode (none models a decode
    exception), the error key raised verbatim, the two message fields
    demanded via _handle_expected_field, and the inner value base64
    decoded. -/
def parse_wss_response (r : Option WsResponse) : Except CapeError Bytes :=
  match r with
  | none => .error .jsonError
  | some resp =>
    match resp.error with
    | some e => .error (.remoteError e)
    | none =>
      match resp.message with
      | none => .error .malformedResponse
      | some inner =>
        match inner.message with
        | none => .error .malformedResponse
        | some b64s =>
          match B64.b64decode b64s with
          | none => .error .b64Error
          | some bs => .ok bs

/-- Outcomes of the external calls of _request_connection beyond bootstrap:
    the json.loads decoding of the user_data bytes. -/
structure ConnEnv where
  boot : BootstrapEnv
  jsonLoads : Bytes → Option UserDataDict

/-- Embedding of the mutable client state of Cape: self._ctx. -/
structure CapeState where
  ctx : Option EnclaveContext
deriving Repr, DecidableEq

/-- Embedding of Cape.close: close the enclave context when one is present
    and drop it. -/
def cape_close (s : CapeState) (w : World) : CapeState × World :=
  match s.ctx with
  | none => (s, w)
  | some c => (⟨none⟩, (ctxClose c w).2)

/-- Embedding of Cape._request_connection: create a fresh context, run
    bootstrap on it, then the checksum binding: a supplied expected checksum
    with absent user_data closes then raises; otherwise user_data is JSON
    decoded, func_checksum extracted, base64 decoded, rendered as a
    lowercase hex string and compared for string equality with the expected
    checksum; a mismatch closes the context before raising.  All other
    failure paths return without closing. -/
def request_connection (env : ConnEnv) (checksum : Option Str)
    (pcrs : Option (List (Str × List Str))) (_s : CapeState) (w : World) :
    Except CapeError Unit × CapeState × World :=
  let ctx0 : EnclaveContext := ⟨none, none⟩
  let boot := bootstrap env.boot pcrs ctx0 w
  let ctx1 := boot.2.1
  let w1 := boot.2.2
  let s1 : CapeState := ⟨some ctx1⟩
  match boot.1 with
  | .error e => (.error e, s1, w1)
  | .ok doc =>
    if checksum.isSome ∧ doc.user_data.isNone then
      let closed := ctxClose ctx1 w1
      (.error .checksumMissing, ⟨some closed.1⟩, closed.2)
    else
      match doc.user_data with
      | none => (.error .typeError, s1, w1)
      | some ud =>
        match env.jsonLoads ud with
        | none => (.error .jsonError, s1, w1)
        | some d =>
          match checksum with
          | none => (.ok (), s1, w1)
          | some expected =>
            match d.func_checksum with
            | none => (.error .typeError, s1, w1)
            | some fc =>
              match B64.b64decode fc with
              | none => (.error .b64Error, s1, w1)
              | some bs =>
                let received := Hex.ofBytes bs
                if expected ≠ received then
                  let closed := ctxClose ctx1 w1
                  (.error .checksumMismatch, ⟨some closed.1⟩, closed.2)
                else (.ok (), s1, w1)

/-- One transport operation of an invocation. -/
inductive TraceEvent
  | send (payload : Bytes)
  | recv
deriving Repr, DecidableEq

/-- Outcomes of the external calls of _EnclaveContext.invoke: the HPKE seal
    of the inputs under the session public key (pycape/_enclave_encrypt.py
    is absent from the sources; modelled from the spec as the SessionSeal
    primitive), whether websocket.send raised ConnectionClosedOK, and the
    received reply (error models recv raising, ok none models a reply that
    is not JSON). -/
structure InvokeEnv where
  hpkeSeal : Bytes → Bytes → Bytes
  sendOk : Bool
  recvResult : Except CapeError (Option WsResponse)

/-- Embedding of _EnclaveContext.invoke: seal the inputs (the seal call
    raises before any transport use when the public key is absent), send
    them (a ConnectionClosedOK on send closes the context then raises the
    timeout guidance error), receive and parse the reply.  The trace lists
    the transport operations attempted. -/
def ctx_invoke (env : InvokeEnv) (inputs : Bytes) (ctx : EnclaveContext) (w : World) :
    Except CapeError Bytes × EnclaveContext × World × List TraceEvent :=
  match ctx.public_key with
  | none => (.error .typeError, ctx, w, [])
  | some pk =>
    let ct := env.hpkeSeal pk inputs
    match ctx.websocket with
    | none => (.error .attributeNoneError, ctx, w, [])
    | some _sid =>
      if !env.sendOk then
        let closed := ctxClose ctx w
        (.error .transportClosed, closed.1, closed.2, [.send ct])
      else
        match env.recvResult with
        | .error e => (.error e, ctx, w, [.send ct, .recv])
        | .ok r => (parse_wss_response r, ctx, w, [.send ct, .recv])

/-- Model of a Python argument value: bytes or anything else. -/
inductive PyVal
  | bytesVal (bs : Bytes)
  | otherVal
deriving Repr, DecidableEq

/-- Embedding of _maybe_get_single_input: a single positional argument is
    returned; a single keyword argument hits kwargs.items()[0][1], which
    raises TypeError in Python 3 since dict_items is not subscriptable;
    anything else yields None. -/
def maybe_get_single_input (args : List PyVal) (kwargs : List (Str × PyVal)) :
    Except CapeError (Option PyVal) :=
  if args.length = 1 ∧ kwargs.length = 0 then
    match args with
    | a :: _ => .ok (some a)
    | [] => .ok none
  else if args.length = 0 ∧ kwargs.length = 1 then .error .typeError
  else .ok none

/-- Outcomes of the serdio calls: the serialized input bytes and the
    deserialization applied to results when use_serdio holds. -/
structure SerdioEnv where
  serialized : Bytes
  deserialize : Bytes → Bytes

/-- Embedding of Cape.invoke / Cape._request_invocation: argument
    validation (single-input extraction, the ValueError for several inputs
    without serdio, serialization, the bytes type check), then
    self._ctx.invoke — an attribute error on None when no connection
    exists — and deserialization of the result under serdio.  No transport
    operation happens before the context call. -/
def request_invocation (env : InvokeEnv) (sd : SerdioEnv)
    (hasSerdeHooks useSerdio : Bool) (args : List PyVal) (kwargs : List (Str × PyVal))
    (s : CapeState) (w : World) :
    Except CapeError Bytes × CapeState × World × List TraceEvent :=
  match maybe_get_single_input args kwargs with
  | .error e => (.error e, s, w, [])
  | .ok single =>
    if single.isNone ∧ !useSerdio then (.error .valueError, s, w, [])
    else
      let useSerdio2 := useSerdio || hasSerdeHooks
      let inputs : PyVal := if useSerdio2 then .bytesVal sd.serialized else single.getD .otherVal
      match inputs with
      | .otherVal => (.error .typeError, s, w, [])
      | .bytesVal bs =>
        match s.ctx with
        | none => (.error .attributeNoneError, s, w, [])
        | some ctx =>
          let r := ctx_invoke env bs ctx w
          let s2 : CapeState := ⟨some r.2.1⟩
          match r.1 with
          | .error e => (.error e, s2, r.2.2.1, r.2.2.2)
          | .ok out =>
            (.ok (if useSerdio2 then sd.deserialize out else out), s2, r.2.2.1, r.2.2.2)

/-- Embedding of Cape.run: the function_context manager wraps connect (with
    the function/token conversion outcome given as conv) and the finally
    close, and the invocation runs in its body; close executes on every
    path, also when conversion, connection or invocation raised. -/
def cape_run (conv : Except CapeError Unit) (cenv : ConnEnv) (ienv : InvokeEnv)
    (sd : SerdioEnv) (checksum : Option Str) (pcrs : Option (List (Str × List Str)))
    (hasSerdeHooks useSerdio : Bool) (args : List PyVal) (kwargs : List (Str × PyVal))
    (s : CapeState) (w : World) : Except CapeError Bytes × CapeState × World :=
  match conv with
  | .error e => let r := cape_close s w; (.error e, r.1, r.2)
  | .ok _ =>
    let conn := request_connection cenv checksum pcrs s w
    match conn.1 with
    | .error e => let r := cape_close conn.2.1 conn.2.2; (.error e, r.1, r.2)
    | .ok _ =>
      let inv := request_invocation ienv sd hasSerdeHooks useSerdio args kwargs conn.2.1 conn.2.2
      let r := cape_close inv.2.1 inv.2.2.1
      (inv.1, r.1, r.2)

end Session

namespace CapeEncrypt

/-- Abstract backend for the cryptography-library calls of
    pycape/cape_encrypt.py: DER public-key loading (none models either a
    load failure or a non-RSA key, the two ValueError sites of
    _parse_rsa_key), deterministic AES-GCM sealing given key and nonce, and
    RSA-OAEP/SHA-256 encryption given the loaded key handle and the seed
    bytes the padding consumes. -/
structure CryptoBackend where
  loadDerPublicKey : Bytes → Option Nat
  aesgcmEncrypt : Bytes → Bytes → Bytes → Bytes
  rsaOaepSha256Encrypt : Nat → (Nat → Nat) → Bytes → Bytes

/-- Embedding of os.urandom: the next n bytes of the entropy stream. -/
def os_urandom (n : Nat) (entropy : Nat → Nat) : Bytes :=
  (List.range n).map fun i => entropy i % 256

/-- Embedding of _aes_keygen: AESGCM.generate_key draws bitlength / 8
    random bytes. -/
def aes_keygen (bitlength : Nat) (entropy : Nat → Nat) : Bytes :=
  os_urandom (bitlength / 8) entropy

/-- Embedding of _aes_encrypt: draw a fresh 12-byte nonce, AEAD-seal the
    inputs under the key with that nonce and no associated data, and return
    the pair (ciphertext, nonce). -/
def aes_encrypt (B : CryptoBackend) (entropy : Nat → Nat) (inputs key : Bytes) :
    Bytes × Bytes :=
  let nonce := os_urandom 12 entropy
  (B.aesgcmEncrypt key nonce inputs, nonce)

/-- The fresh AES key drawn by encrypt from the entropy stream. -/
def freshAesKey (entropy : Nat → Nat) : Bytes := aes_keygen 256 entropy

/-- The fresh AEAD nonce drawn by encrypt from the entropy stream, after
    the 32 key bytes. -/
def freshNonce (entropy : Nat → Nat) : Bytes :=
  os_urandom 12 fun i => entropy (32 + i)

/-- Embedding of encrypt from pycape/cape_encrypt.py: parse the DER RSA
    key (ValueError when that fails), generate a fresh 256-bit AES key,
    AES-GCM-seal the message under it with a fresh 96-bit nonce, RSA-OAEP
    encrypt the AES key, and return key_ctxt ++ nonce ++ data_ctxt.  The
    entropy stream feeds, in order, the 32 key bytes, the 12 nonce bytes,
    and the OAEP seed. -/
def encrypt (B : CryptoBackend) (entropy : Nat → Nat) (message key : Bytes) :
    Except Unit Bytes :=
  match B.loadDerPublicKey key with
  | none => .error ()
  | some rsa_key =>
    let aes_key := freshAesKey entropy
    let enc := aes_encrypt B (fun i => entropy (32 + i)) message aes_key
    let data_ctxt := enc.1
    let nonce := enc.2
    let key_ctxt := B.rsaOaepSha256Encrypt rsa_key (fun i => entropy (44 + i)) aes_key
    .ok (key_ctxt ++ nonce ++ data_ctxt)

end CapeEncrypt

namespace FuncRef

/-- Embedding of the FunctionRef fields: id, user and name (both set from
    splitting a full name), and checksum. -/
structure FunctionRef where
  id : Option Str
  user : Option Str
  name : Option Str
  checksum : Option Str
deriving Repr, DecidableEq

/-- Embedding of the FunctionRef constructor from pycape/function_ref.py:
    at least one of id and name is required, and a supplied name must split
    on the slash into exactly a username and a function name. -/
def functionRefInit (id name checksum : Option Str) : Except AttestMod.CapeError FunctionRef :=
  if id.isNone ∧ name.isNone then .error .valueError
  else
    match name with
    | none => .ok ⟨id, none, none, checksum⟩
    | some n =>
      match PyStr.splitOn '/' n with
      | [u, fn] => .ok ⟨id, some u, some fn, checksum⟩
      | _ => .error .valueError

/-- Embedding of the FunctionRef.full_name property. -/
def fullName (f : FunctionRef) : Option Str :=
  match f.user, f.name with
  | some u, some n => some (u ++ '/' :: n)
  | _, _ => none

/-- Model of the identifier argument of Cape.function: a pathlib.Path (with
    the outcome of FunctionRef.from_json on it), a string (with the from_json
    outcome when it is a path to an existing file, else none), an existing
    FunctionRef, or a value of any other type. -/
inductive Identifier
  | path (fromJson : Except AttestMod.CapeError FunctionRef)
  | str (s : Str) (fileRef : Option (Except AttestMod.CapeError FunctionRef))
  | ref (f : FunctionRef)
  | unknownType
deriving Repr

/-- Embedding of Cape.function: a Path delegates to from_json; a string is
    first tried as an existing file, then as a two-part function name, then
    as a 22-character function id; a FunctionRef is returned as is, gets the
    checksum argument when its own is missing, and conflicts are an error;
    every other identifier raises ValueError. -/
def cape_function (identifier : Identifier) (checksum : Option Str) :
    Except AttestMod.CapeError FunctionRef :=
  match identifier with
  | .path r => r
  | .str s fileRef =>
    match fileRef with
    | some r => r
    | none =>
      if (PyStr.splitOn '/' s).length = 2 then functionRefInit none (some s) checksum
      else if s.length = 22 then functionRefInit (some s) none checksum
      else .error .valueError
  | .ref f =>
    match checksum with
    | none => .ok f
    | some c =>
      match f.checksum with
      | none => functionRefInit f.id (fullName f) (some c)
      | some fc => if c = fc then .ok f else .error .valueError
  | .unknownType => .error .valueError

end FuncRef

namespace Session

/-- The websocket accounting a single client session maintains: the open
    sockets of the world are exactly the handle of the context, when it has
    one. -/
def SocketsMatch (c : EnclaveContext) (w : World) : Prop :=
  match c.websocket with
  | none => w.openSockets = []
  | some sid => w.openSockets = [sid]

end Session

namespace Fixtures

/-- An initial world with no open websocket. -/
def w0 : Session.World := ⟨0, []⟩

/-- A well-formed attestation document carrying an echoed nonce and one PCR
    measurement. -/
def docNonced : AttDoc :=
  ⟨some [1], some [[2]], some [3, 4], some [5], [(['0'], [6])], some [9, 9]⟩

/-- The document above as a decoded raw attestation whose signature and
    chain checks pass. -/
def rawNonced : RawAttestation := ⟨some docNonced, true, true⟩

/-- An expected nonce that differs from the echoed nonce of docNonced. -/
def expectedNonce : Bytes := [1, 2, 3]

/-- A PCR policy on index 0 that docNonced violates. -/
def pcrPolicy0 : List (Str × List Str) := [(['0'], [['f', 'f']])]

/-- A bootstrap environment whose dial and authentication succeed but whose
    attestation signature check fails. -/
def bootSigFail : Session.BootstrapEnv :=
  ⟨true, fun _ => 0, .ok [], ⟨some docNonced, false, true⟩⟩

/-- A well-formed attestation document without echoed nonce, with user
    data. -/
def docPlain : AttDoc := ⟨some [1], some [[2]], some [3, 4], some [7], [], none⟩

/-- A connection environment whose bootstrap succeeds and whose user data
    decodes to a dictionary with func_checksum base64 value qw==, the
    encoding of the byte 0xAB. -/
def connQw : Session.ConnEnv :=
  ⟨⟨true, fun _ => 0, .ok [], ⟨some docPlain, true, true⟩⟩,
   fun _ => some ⟨some ('q' :: 'w' :: '=' :: '=' :: []), none⟩⟩

/-- An invocation environment whose seal echoes the inputs, whose send
    succeeds and whose reply carries the base64 message AA==. -/
def invokeEnv0 : Session.InvokeEnv :=
  ⟨fun _ inputs => inputs, true, .ok (some ⟨none, some ⟨some ('A' :: 'A' :: '=' :: '=' :: [])⟩⟩)⟩

/-- A serdio environment: no serialization payload, identity
    deserialization. -/
def sd0 : Session.SerdioEnv := ⟨[], fun b => b⟩

/-- A crypto backend: every key loads, the AEAD appends one tag byte, the
    RSA-OAEP ciphertext is one fixed byte. -/
def backend0 : CapeEncrypt.CryptoBackend :=
  ⟨fun _ => some 0, fun _ _ ptxt => ptxt ++ [0], fun _ _ _ => [7]⟩

/-- A constant entropy stream. -/
def entropyA : Nat → Nat := fun _ => 0

/-- An entropy stream distinct from entropyA in every draw. -/
def entropyB : Nat → Nat := fun i => i + 1

end Fixtures

/-- C1 (counterexample): a decoded attestation whose echoed nonce differs
    from the expected nonce and whose PCR measurement violates a policy is
    still accepted by parse_attestation, which returns the pair — the
    function performs neither the nonce comparison nor the PCR
    verification the claim attributes to it. -/
theorem C1_counterexample :
    Fixtures.docNonced.nonce = some [9, 9] ∧
    ¬ ([9, 9] : Bytes) = Fixtures.expectedNonce ∧
    AttestMod.verify_pcrs Fixtures.pcrPolicy0 Fixtures.docNonced = .error .pcrMismatch ∧
    AttestationPy.parse_attestation Fixtures.rawNonced = .ok ([3, 4], some [5]) := by
  decide

/-- C1 (amended): parse_attestation returns the pair (publicKey, userData)
    exactly when the raw attestation decodes, carries the three required
    fields, and passes the signature and chain checks, in that error order;
    on any failure no partial result is returned.  It receives no expected
    nonce and no PCR policy and so performs no nonce or PCR verification. -/
theorem C1_parse_attestation_characterization (att : RawAttestation) :
    (∀ pk ud, AttestationPy.parse_attestation att = .ok (pk, ud) ↔
      ∃ doc, att.decoded = some doc ∧ doc.public_key = some pk ∧
        doc.certificate.isSome = true ∧ doc.cabundle.isSome = true ∧
        att.sigOk = true ∧ att.chainOk = true ∧ ud = doc.user_data) ∧
    (att.decoded = none →
      AttestationPy.parse_attestation att = .error .malformedMessage) ∧
    (∀ doc, att.decoded = some doc →
      (doc.certificate.isNone = true ∨ doc.cabundle.isNone = true ∨
        doc.public_key.isNone = true) →
      AttestationPy.parse_attestation att = .error .malformedAttestation) ∧
    (∀ doc, att.decoded = some doc → doc.certificate.isSome = true →
      doc.cabundle.isSome = true → doc.public_key.isSome = true →
      att.sigOk = false →
      AttestationPy.parse_attestation att = .error .invalidSignature) ∧
    (∀ doc, att.decoded = some doc → doc.certificate.isSome = true →
      doc.cabundle.isSome = true → doc.public_key.isSome = true →
      att.sigOk = true → att.chainOk = false →
      AttestationPy.parse_attestation att = .error .chainVerificationFailed) := by
  obtain ⟨decoded, sigOk, chainOk⟩ := att
  cases decoded with
  | none =>
    simp [AttestationPy.parse_attestation]
  | some doc =>
    obtain ⟨cert, cab, pk, ud, pcrs, nonce⟩ := doc
    cases cert <;> cases cab <;> cases pk <;> cases sigOk <;> cases chainOk <;>
      simp [AttestationPy.parse_attestation, AttestationPy.check_wellformed_attestation,
        AttestationPy.verify_attestation_signature, AttestationPy.verify_cert_chain,
        bind, Except.bind] <;>
      try exact fun _ _ _ => eq_comm

/-- C1 (witness): the amended characterization evaluated on a concrete
    accepted attestation. -/
theorem C1_witness :
    AttestationPy.parse_attestation Fixtures.rawNonced = .ok ([3, 4], some [5]) :=
  ((C1_parse_attestation_characterization Fixtures.rawNonced).1 [3, 4] (some [5])).2
    ⟨Fixtures.docNonced, by decide, by decide, by decide, by decide, by decide, by decide,
      by decide⟩

/-- After a successful dial, bootstrap leaves the freshly dialed websocket
    assigned to the context and registered open, whatever the remainder of
    the exchange does. -/
theorem bootstrap_socket_after_dial (env : Session.BootstrapEnv)
    (pcrs : Option (List (Str × List Str))) (ctx : Session.EnclaveContext)
    (w : Session.World) (hd : env.dialOk = true) :
    (Session.bootstrap env pcrs ctx w).2.1.websocket = some w.nextId ∧
    (Session.bootstrap env pcrs ctx w).2.2 = ⟨w.nextId + 1, w.nextId :: w.openSockets⟩ := by
  unfold Session.bootstrap
  rw [hd]
  cases env.authResponse with
  | error e => simp
  | ok raw =>
    simp only [Bool.not_true, Bool.false_eq_true, if_false]
    cases AttestMod.parse_attestation env.attestation
        (some (Session.generate_nonce 16 env.entropy)) with
    | error e => simp
    | ok doc =>
      cases pcrs with
      | none => simp
      | some policy => cases hv : AttestMod.verify_pcrs policy doc <;> simp [hv]

/-- Closing a context always yields the empty context. -/
theorem ctxClose_fst (c : Session.EnclaveContext) (w : Session.World) :
    (Session.ctxClose c w).1 = ⟨none, none⟩ := by
  unfold Session.ctxClose
  cases c.websocket <;> simp

/-- The underscored parse_attestation only raises its five attestation
    errors. -/
theorem attmod_parse_error_range (att : RawAttestation) (nonce : Option Bytes)
    (e : AttestMod.CapeError) (h : AttestMod.parse_attestation att nonce = .error e) :
    e = .malformedMessage ∨ e = .malformedAttestation ∨ e = .invalidSignature ∨
    e = .chainVerificationFailed ∨ e = .replayDetected := by
  obtain ⟨dec, sg, ch⟩ := att
  cases dec with
  | none =>
    simp [AttestMod.parse_attestation] at h
    simp [h]
  | some doc =>
    obtain ⟨cert, cab, pk, ud, pcrsd, nn⟩ := doc
    cases nonce with
    | none =>
      cases cert <;> cases cab <;> cases pk <;> cases sg <;> cases ch <;>
        simp_all [AttestMod.parse_attestation] <;> tauto
    | some expected =>
      cases nn <;> cases cert <;> cases cab <;> cases pk <;> cases sg <;> cases ch <;>
        simp_all [AttestMod.parse_attestation, AttestMod.verify_nonce, bind,
          Except.bind] <;>
        first
          | tauto
          | (split_ifs at * <;> simp_all)

/-- verify_pcrs only raises PCRMismatch. -/
theorem verify_pcrs_error_range (p : List (Str × List Str)) (d : AttDoc)
    (e : AttestMod.CapeError) (h : AttestMod.verify_pcrs p d = .error e) :
    e = .pcrMismatch := by
  unfold AttestMod.verify_pcrs at h
  split at h
  · exact Except.noConfusion h
  · exact (Except.error.inj h).symm

/-- bootstrap never raises the checksum errors: those are raised only by
    the checksum verification step of _request_connection. -/
theorem bootstrap_error_not_checksum (env : Session.BootstrapEnv)
    (pcrs : Option (List (Str × List Str))) (ctx : Session.EnclaveContext)
    (w : Session.World) :
    (Session.bootstrap env pcrs ctx w).1 ≠ .error .checksumMissing ∧
    (Session.bootstrap env pcrs ctx w).1 ≠ .error .checksumMismatch := by
  unfold Session.bootstrap
  cases hd : env.dialOk with
  | false => simp
  | true =>
    simp only [Bool.not_true, Bool.false_eq_true, if_false]
    cases ha : env.authResponse with
    | error e => cases e <;> simp [Session.WsError.toCapeError]
    | ok raw =>
      simp only
      cases hp : AttestMod.parse_attestation env.attestation
          (some (Session.generate_nonce 16 env.entropy)) with
      | error e =>
        rcases attmod_parse_error_range _ _ _ hp with h | h | h | h | h <;>
          subst h <;> simp
      | ok doc =>
        cases pcrs with
        | none => simp
        | some policy =>
          cases hv : AttestMod.verify_pcrs policy doc with
          | error e => have := verify_pcrs_error_range _ _ _ hv; subst this; simp [hv]
          | ok u => simp [hv]

/-- Every path of _request_connection either raises something other than
    the two checksum errors, or has closed its context before returning. -/
theorem request_connection_checksum_dichotomy (cenv : Session.ConnEnv)
    (chk : Option Str) (pcrs : Option (List (Str × List Str)))
    (s : Session.CapeState) (w : Session.World) :
    ((Session.request_connection cenv chk pcrs s w).1 ≠ .error .checksumMissing ∧
      (Session.request_connection cenv chk pcrs s w).1 ≠ .error .checksumMismatch) ∨
    (Session.request_connection cenv chk pcrs s w).2.1.ctx = some ⟨none, none⟩ := by
  simp only [Session.request_connection]
  cases hb : (Session.bootstrap cenv.boot pcrs ⟨none, none⟩ w).1 with
  | error e =>
    have hnc := bootstrap_error_not_checksum cenv.boot pcrs ⟨none, none⟩ w
    rw [hb] at hnc
    have he1 : e ≠ .checksumMissing := fun h => hnc.1 (by rw [h])
    have he2 : e ≠ .checksumMismatch := fun h => hnc.2 (by rw [h])
    simp only [hb]
    exact Or.inl ⟨fun h => he1 (Except.error.inj h), fun h => he2 (Except.error.inj h)⟩
  | ok doc =>
    simp only [hb]
    repeat' split
    all_goals simp [ctxClose_fst]

/-- C2 (counterexample): with a successful dial and authentication but a
    failing attestation signature, bootstrap propagates the error while the
    freshly dialed websocket is still assigned and open: the transport is
    not closed before the error reaches the caller. -/
theorem C2_counterexample :
    (Session.bootstrap Fixtures.bootSigFail none ⟨none, none⟩ Fixtures.w0).1 =
      .error .invalidSignature ∧
    (Session.bootstrap Fixtures.bootSigFail none ⟨none, none⟩ Fixtures.w0).2.1.websocket =
      some 0 ∧
    (Session.bootstrap Fixtures.bootSigFail none ⟨none, none⟩ Fixtures.w0).2.2.openSockets =
      [0] := by
  decide

/-- C2 (amended): a dialing failure propagates with no transport assigned or
    open; after a successful dial every bootstrap outcome — success or any
    authentication, attestation or PCR failure — leaves the dialed websocket
    assigned and open, so verification failures inside bootstrap propagate
    without closing the transport; only the two checksum verification
    failure paths of _request_connection close the context before raising
    their error. -/
theorem C2_bootstrap_close_behavior (env : Session.BootstrapEnv)
    (pcrs : Option (List (Str × List Str))) (w : Session.World) :
    (env.dialOk = false →
      Session.bootstrap env pcrs ⟨none, none⟩ w = (.error .dialError, ⟨none, none⟩, w)) ∧
    (env.dialOk = true →
      (Session.bootstrap env pcrs ⟨none, none⟩ w).2.1.websocket = some w.nextId ∧
      w.nextId ∈ (Session.bootstrap env pcrs ⟨none, none⟩ w).2.2.openSockets) ∧
    (∀ (cenv : Session.ConnEnv) (chk : Option Str) (s : Session.CapeState),
      ((Session.request_connection cenv chk pcrs s w).1 ≠ .error .checksumMissing ∧
        (Session.request_connection cenv chk pcrs s w).1 ≠ .error .checksumMismatch) ∨
      (Session.request_connection cenv chk pcrs s w).2.1.ctx = some ⟨none, none⟩) := by
  refine ⟨fun hd => ?_, fun hd => ?_, fun cenv chk s => ?_⟩
  · unfold Session.bootstrap
    rw [hd]
    simp
  · obtain ⟨hws, hw⟩ := bootstrap_socket_after_dial env pcrs ⟨none, none⟩ w hd
    rw [hw]
    exact ⟨hws, List.mem_cons_self _ _⟩
  · exact request_connection_checksum_dichotomy cenv chk pcrs s w

/-- C2 (witness): the amended statement evaluated on the concrete
    failing-signature bootstrap environment. -/
theorem C2_witness :
    (Session.bootstrap Fixtures.bootSigFail none ⟨none, none⟩ Fixtures.w0).2.1.websocket =
      some 0 ∧
    0 ∈ (Session.bootstrap Fixtures.bootSigFail none ⟨none, none⟩ Fixtures.w0).2.2.openSockets :=
  (C2_bootstrap_close_behavior Fixtures.bootSigFail none Fixtures.w0).2.1 rfl

/-- C3: for every requested length and every sequence of pseudo-random
    draws, the nonce produced by _generate_nonce has exactly that many
    bytes and every byte is the ASCII code of a decimal digit (48 to 57):
    the output is digits-only and the draws come from the random module, a
    non-cryptographic PRNG — the code contradicts the claim, which the spec
    itself records as a correctness defect of the original generator. -/
theorem C3_generate_nonce_digits_only (length : Nat) (draws : Nat → Nat) :
    (Session.generate_nonce length draws).length = length ∧
    ∀ b ∈ Session.generate_nonce length draws, 48 ≤ b ∧ b ≤ 57 := by
  constructor
  · simp [Session.generate_nonce]
  · intro b hb
    simp only [Session.generate_nonce, List.mem_map] at hb
    obtain ⟨i, _, hi⟩ := hb
    have : draws i % 10 < 10 := Nat.mod_lt _ (by omega)
    omega

/-- C3 (witness): the digit bound evaluated on the default length 16 and a
    concrete draw sequence containing the byte 48. -/
theorem C3_witness :
    (Session.generate_nonce 16 (fun i => i)).length = 16 ∧
    (48 ≤ 48 ∧ 48 ≤ 57) :=
  ⟨(C3_generate_nonce_digits_only 16 (fun i => i)).1,
    (C3_generate_nonce_digits_only 16 (fun i => i)).2 48 (by decide)⟩

/-- C9: close is idempotent and safe from every state: one _EnclaveContext
    close clears the websocket handle and the public key (both become
    absent), a second close leaves context and world unchanged, and the same
    holds of Cape.close at the client level; both are total and raise no
    error. -/
theorem C9_close_idempotent (c : Session.EnclaveContext) (w : Session.World)
    (s : Session.CapeState) :
    (Session.ctxClose c w).1.websocket = none ∧
    (Session.ctxClose c w).1.public_key = none ∧
    Session.ctxClose (Session.ctxClose c w).1 (Session.ctxClose c w).2 =
      ((Session.ctxClose c w).1, (Session.ctxClose c w).2) ∧
    (Session.cape_close s w).1.ctx = none ∧
    Session.cape_close (Session.cape_close s w).1 (Session.cape_close s w).2 =
      ((Session.cape_close s w).1, (Session.cape_close s w).2) := by
  refine ⟨?_, ?_, ?_, ?_, ?_⟩
  · rw [ctxClose_fst]
  · rw [ctxClose_fst]
  · rw [ctxClose_fst]
    rfl
  · obtain ⟨sc⟩ := s
    cases sc <;> simp [Session.cape_close]
  · obtain ⟨sc⟩ := s
    cases sc <;> simp [Session.cape_close]

/-- C5: invoking with no enclave context — the Unconnected state before any
    bootstrap, and the Closed state after Cape.close, which always leaves
    ctx absent — fails immediately with an error, leaves state and world
    untouched, and performs zero transport operations: the trace of sends
    and receives is empty. -/
theorem C5_invoke_without_context (env : Session.InvokeEnv) (sd : Session.SerdioEnv)
    (hooks us : Bool) (args : List Session.PyVal) (kwargs : List (Str × Session.PyVal))
    (s : Session.CapeState) (w : Session.World) (h : s.ctx = none) :
    ∃ e, Session.request_invocation env sd hooks us args kwargs s w =
      (.error e, s, w, []) := by
  unfold Session.request_invocation
  cases hm : Session.maybe_get_single_input args kwargs with
  | error e => exact ⟨e, rfl⟩
  | ok single =>
    simp only
    split
    · exact ⟨.valueError, rfl⟩
    · split
      · exact ⟨.typeError, rfl⟩
      · rw [h]
        exact ⟨.attributeNoneError, rfl⟩

/-- C5 (witness): an invoke on the fresh unconnected client with a single
    bytes argument fails with no transport operation. -/
theorem C5_witness :
    ∃ e, Session.request_invocation Fixtures.invokeEnv0 Fixtures.sd0 false false
      [Session.PyVal.bytesVal [1]] [] ⟨none⟩ Fixtures.w0 =
      (.error e, ⟨none⟩, Fixtures.w0, []) :=
  C5_invoke_without_context Fixtures.invokeEnv0 Fixtures.sd0 false false
    [Session.PyVal.bytesVal [1]] [] ⟨none⟩ Fixtures.w0 rfl

/-- C4 (counterexample): with expected checksum AB and attestation
    func_checksum qw== — the base64 encoding of the byte 0xAB — the client
    raises ChecksumMismatch although the expected and received values are
    equal case-insensitively: it base64-decodes the field (qw== is not even
    valid hex) and compares the lowercase hex rendering to the expected
    string case-sensitively. -/
theorem C4_counterexample :
    (Session.request_connection Fixtures.connQw (some ['A', 'B']) none ⟨none⟩
      Fixtures.w0).1 = .error .checksumMismatch ∧
    PyStr.lower ['A', 'B'] = PyStr.lower ['a', 'b'] ∧
    B64.b64decode ('q' :: 'w' :: '=' :: '=' :: []) = some [171] := by
  decide

/-- C4 (amended): when a connection request carries an expected checksum
    and the attestation user data decodes to JSON with a func_checksum
    field, the client base64-decodes that field, renders it as a lowercase
    hex string, and compares it to the expected checksum string
    case-sensitively; on equality the connection succeeds, and on mismatch
    the context is closed before ChecksumMismatch is raised. -/
theorem C4_checksum_verification (cenv : Session.ConnEnv) (expected : Str)
    (pcrs : Option (List (Str × List Str))) (s : Session.CapeState) (w : Session.World)
    (doc : AttDoc) (ud : Bytes) (d : Session.UserDataDict) (fc : Str) (bs : Bytes)
    (hboot : (Session.bootstrap cenv.boot pcrs ⟨none, none⟩ w).1 = .ok doc)
    (hud : doc.user_data = some ud)
    (hjson : cenv.jsonLoads ud = some d)
    (hfc : d.func_checksum = some fc)
    (hb64 : B64.b64decode fc = some bs) :
    (expected = Hex.ofBytes bs →
      (Session.request_connection cenv (some expected) pcrs s w).1 = .ok ()) ∧
    (expected ≠ Hex.ofBytes bs →
      (Session.request_connection cenv (some expected) pcrs s w).1 =
        .error .checksumMismatch ∧
      (Session.request_connection cenv (some expected) pcrs s w).2.1.ctx =
        some ⟨none, none⟩) := by
  simp only [Session.request_connection, hboot, hud, hjson, hfc, hb64]
  constructor
  · intro h
    simp [hud, h]
  · intro h
    simp [hud, h, ctxClose_fst]

/-- C4 (witness): the amended statement evaluated on the concrete
    environment, with matching lowercase expected checksum ab. -/
theorem C4_witness :
    (Session.request_connection Fixtures.connQw (some ['a', 'b']) none ⟨none⟩
      Fixtures.w0).1 = .ok () :=
  (C4_checksum_verification Fixtures.connQw ['a', 'b'] none ⟨none⟩ Fixtures.w0
    Fixtures.docPlain [7] ⟨some ('q' :: 'w' :: '=' :: '=' :: []), none⟩
    ('q' :: 'w' :: '=' :: '=' :: []) [171]
    (by decide) (by decide) (by decide) (by decide) (by decide)).1 (by decide)

/-- On a key that loads, encrypt returns exactly the RSA-encrypted AES key,
    then the fresh AEAD nonce, then the AEAD ciphertext. -/
theorem encrypt_ok_eq (B : CapeEncrypt.CryptoBackend) (entropy : Nat → Nat)
    (message key : Bytes) (kh : Nat) (h : B.loadDerPublicKey key = some kh) :
    CapeEncrypt.encrypt B entropy message key =
      .ok (B.rsaOaepSha256Encrypt kh (fun i => entropy (44 + i))
          (CapeEncrypt.freshAesKey entropy) ++
        CapeEncrypt.freshNonce entropy ++
        B.aesgcmEncrypt (CapeEncrypt.freshAesKey entropy)
          (CapeEncrypt.freshNonce entropy) message) := by
  unfold CapeEncrypt.encrypt
  rw [h]
  rfl

/-- C6: on every valid recipient RSA key, encrypt draws a fresh 256-bit
    (32-byte) AES key, AEAD-seals the plaintext under it with a fresh
    96-bit (12-byte) nonce, RSA-OAEP/SHA-256-encrypts the AES key, and
    returns exactly asymmetric_encrypted_key, then aead_nonce, then
    aead_ciphertext, concatenated in that order. -/
theorem C6_envelope_layout (B : CapeEncrypt.CryptoBackend) (entropy : Nat → Nat)
    (message key : Bytes) (kh : Nat) (h : B.loadDerPublicKey key = some kh) :
    CapeEncrypt.encrypt B entropy message key =
      .ok (B.rsaOaepSha256Encrypt kh (fun i => entropy (44 + i))
          (CapeEncrypt.freshAesKey entropy) ++
        CapeEncrypt.freshNonce entropy ++
        B.aesgcmEncrypt (CapeEncrypt.freshAesKey entropy)
          (CapeEncrypt.freshNonce entropy) message) ∧
    (CapeEncrypt.freshAesKey entropy).length = 32 ∧
    (CapeEncrypt.freshNonce entropy).length = 12 := by
  refine ⟨encrypt_ok_eq B entropy message key kh h, ?_, ?_⟩
  · simp [CapeEncrypt.freshAesKey, CapeEncrypt.aes_keygen, CapeEncrypt.os_urandom]
  · simp [CapeEncrypt.freshNonce, CapeEncrypt.os_urandom]

/-- C6 (witness): the envelope layout evaluated on a concrete backend,
    entropy stream, message and key. -/
theorem C6_witness :
    CapeEncrypt.encrypt Fixtures.backend0 Fixtures.entropyA [1, 2] [9] =
      .ok (Fixtures.backend0.rsaOaepSha256Encrypt 0 (fun i => Fixtures.entropyA (44 + i))
          (CapeEncrypt.freshAesKey Fixtures.entropyA) ++
        CapeEncrypt.freshNonce Fixtures.entropyA ++
        Fixtures.backend0.aesgcmEncrypt (CapeEncrypt.freshAesKey Fixtures.entropyA)
          (CapeEncrypt.freshNonce Fixtures.entropyA) [1, 2]) ∧
    (CapeEncrypt.freshAesKey Fixtures.entropyA).length = 32 ∧
    (CapeEncrypt.freshNonce Fixtures.entropyA).length = 12 :=
  C6_envelope_layout Fixtures.backend0 Fixtures.entropyA [1, 2] [9] 0 rfl

/-- C7: two encrypt runs over the same plaintext and the same recipient key
    that consume distinct fresh AES keys and distinct fresh nonces produce
    unequal ciphertexts (the RSA-OAEP ciphertext length depends only on the
    recipient key, so the nonce segments of the two outputs are aligned). -/
theorem C7_encrypt_never_repeats (B : CapeEncrypt.CryptoBackend) (r1 r2 : Nat → Nat)
    (message key : Bytes) (kh kLen : Nat)
    (h : B.loadDerPublicKey key = some kh)
    (hlen : ∀ (seed : Nat → Nat) (k : Bytes), (B.rsaOaepSha256Encrypt kh seed k).length = kLen)
    (hkey : CapeEncrypt.freshAesKey r1 ≠ CapeEncrypt.freshAesKey r2)
    (hnonce : CapeEncrypt.freshNonce r1 ≠ CapeEncrypt.freshNonce r2) :
    CapeEncrypt.encrypt B r1 message key ≠ CapeEncrypt.encrypt B r2 message key := by
  intro heq
  rw [encrypt_ok_eq B r1 message key kh h, encrypt_ok_eq B r2 message key kh h] at heq
  have heq2 := Except.ok.inj heq
  have hlen12 :
      (B.rsaOaepSha256Encrypt kh (fun i => r1 (44 + i)) (CapeEncrypt.freshAesKey r1) ++
        CapeEncrypt.freshNonce r1).length =
      (B.rsaOaepSha256Encrypt kh (fun i => r2 (44 + i)) (CapeEncrypt.freshAesKey r2) ++
        CapeEncrypt.freshNonce r2).length := by
    simp [hlen, CapeEncrypt.freshNonce, CapeEncrypt.os_urandom]
  have h12 := (List.append_inj heq2 hlen12).1
  have halen :
      (B.rsaOaepSha256Encrypt kh (fun i => r1 (44 + i)) (CapeEncrypt.freshAesKey r1)).length =
      (B.rsaOaepSha256Encrypt kh (fun i => r2 (44 + i)) (CapeEncrypt.freshAesKey r2)).length := by
    rw [hlen, hlen]
  exact hnonce (List.append_inj h12 halen).2

/-- C7 (witness): two concrete runs with distinct entropy streams yield
    unequal ciphertexts. -/
theorem C7_witness :
    CapeEncrypt.encrypt Fixtures.backend0 Fixtures.entropyA [1] [9] ≠
      CapeEncrypt.encrypt Fixtures.backend0 Fixtures.entropyB [1] [9] :=
  C7_encrypt_never_repeats Fixtures.backend0 Fixtures.entropyA Fixtures.entropyB [1] [9] 0 1
    rfl (fun _ _ => rfl) (by decide) (by decide)

/-- A failing dial returns the dial error with context and world
    untouched. -/
theorem bootstrap_dial_fail (env : Session.BootstrapEnv)
    (pcrs : Option (List (Str × List Str))) (ctx : Session.EnclaveContext)
    (w : Session.World) (hd : env.dialOk = false) :
    Session.bootstrap env pcrs ctx w = (.error .dialError, ctx, w) := by
  unfold Session.bootstrap
  rw [hd]
  simp

/-- Closing a context whose handle matches the world empties the open
    socket list. -/
theorem ctxClose_empties (c : Session.EnclaveContext) (w : Session.World)
    (h : Session.SocketsMatch c w) :
    (Session.ctxClose c w).2.openSockets = [] := by
  unfold Session.SocketsMatch at h
  unfold Session.ctxClose
  cases hc : c.websocket with
  | none => rw [hc] at h; simpa using h
  | some sid =>
    rw [hc] at h
    simp [h]

/-- Starting from a fresh context and an empty world, bootstrap maintains
    the socket accounting. -/
theorem bootstrap_socketsMatch (env : Session.BootstrapEnv)
    (pcrs : Option (List (Str × List Str))) (w : Session.World)
    (hw : w.openSockets = []) :
    Session.SocketsMatch (Session.bootstrap env pcrs ⟨none, none⟩ w).2.1
      (Session.bootstrap env pcrs ⟨none, none⟩ w).2.2 := by
  cases hd : env.dialOk with
  | false =>
    rw [bootstrap_dial_fail env pcrs ⟨none, none⟩ w hd]
    unfold Session.SocketsMatch
    simpa using hw
  | true =>
    obtain ⟨hws, hw2⟩ := bootstrap_socket_after_dial env pcrs ⟨none, none⟩ w hd
    unfold Session.SocketsMatch
    rw [hws, hw2, hw]

/-- request_connection from an empty world always stores a context whose
    handle matches the world socket accounting. -/
theorem request_connection_socketsMatch (cenv : Session.ConnEnv) (chk : Option Str)
    (pcrs : Option (List (Str × List Str))) (s : Session.CapeState)
    (w : Session.World) (hw : w.openSockets = []) :
    ∃ c, (Session.request_connection cenv chk pcrs s w).2.1.ctx = some c ∧
      Session.SocketsMatch c (Session.request_connection cenv chk pcrs s w).2.2 := by
  have hb := bootstrap_socketsMatch cenv.boot pcrs w hw
  simp only [Session.request_connection]
  repeat' split
  all_goals refine ⟨_, rfl, ?_⟩
  all_goals first
    | exact hb
    | (rw [ctxClose_fst]
       unfold Session.SocketsMatch
       simp only
       exact ctxClose_empties _ _ hb)

/-- ctx_invoke maintains the socket accounting. -/
theorem ctx_invoke_socketsMatch (env : Session.InvokeEnv) (inputs : Bytes)
    (c : Session.EnclaveContext) (w : Session.World)
    (hm : Session.SocketsMatch c w) :
    Session.SocketsMatch (Session.ctx_invoke env inputs c w).2.1
      (Session.ctx_invoke env inputs c w).2.2.1 := by
  unfold Session.ctx_invoke
  repeat' split
  all_goals try exact hm
  all_goals
    rw [ctxClose_fst]
    unfold Session.SocketsMatch
    simp only
    exact ctxClose_empties _ _ hm

/-- request_invocation maintains the socket accounting of a stored
    context. -/
theorem request_invocation_socketsMatch (env : Session.InvokeEnv)
    (sd : Session.SerdioEnv) (hooks us : Bool) (args : List Session.PyVal)
    (kwargs : List (Str × Session.PyVal)) (s : Session.CapeState)
    (w : Session.World) (c : Session.EnclaveContext)
    (hs : s.ctx = some c) (hm : Session.SocketsMatch c w) :
    ∃ d, (Session.request_invocation env sd hooks us args kwargs s w).2.1.ctx = some d ∧
      Session.SocketsMatch d
        (Session.request_invocation env sd hooks us args kwargs s w).2.2.1 := by
  unfold Session.request_invocation
  repeat' split
  all_goals try exact ⟨c, hs, hm⟩
  all_goals rename_i heq
  all_goals rw [hs] at heq
  all_goals try exact Option.noConfusion heq
  all_goals cases Option.some.inj heq
  all_goals simp only
  all_goals repeat' split
  all_goals first
    | exact ⟨c, hs, hm⟩
    | exact ⟨_, rfl, ctx_invoke_socketsMatch env _ c w hm⟩

/-- Cape.close on a stored context whose handle matches the world leaves no
    context and no open socket. -/
theorem cape_close_empties (s : Session.CapeState) (w : Session.World)
    (c : Session.EnclaveContext) (hs : s.ctx = some c)
    (hm : Session.SocketsMatch c w) :
    (Session.cape_close s w).1.ctx = none ∧
    (Session.cape_close s w).2.openSockets = [] := by
  obtain ⟨sc⟩ := s
  simp only at hs
  subst hs
  exact ⟨rfl, ctxClose_empties c w hm⟩

/-- C8: run is the function_context composition of connect, invoke and the
    finally-close, and for every outcome — conversion failure, connection
    failure, invocation failure or success — the client ends with no
    enclave context and no open websocket: close executes on every path,
    also when invoke raises. -/
theorem C8_run_composition_closes (conv : Except AttestMod.CapeError Unit)
    (cenv : Session.ConnEnv) (ienv : Session.InvokeEnv) (sd : Session.SerdioEnv)
    (checksum : Option Str) (pcrs : Option (List (Str × List Str)))
    (hooks us : Bool) (args : List Session.PyVal) (kwargs : List (Str × Session.PyVal))
    (w : Session.World) (hw : w.openSockets = []) :
    (Session.cape_run conv cenv ienv sd checksum pcrs hooks us args kwargs
      ⟨none⟩ w).2.1.ctx = none ∧
    (Session.cape_run conv cenv ienv sd checksum pcrs hooks us args kwargs
      ⟨none⟩ w).2.2.openSockets = [] := by
  unfold Session.cape_run
  cases conv with
  | error e => simpa [Session.cape_close] using hw
  | ok u =>
    simp only
    obtain ⟨c, hc, hm⟩ := request_connection_socketsMatch cenv checksum pcrs ⟨none⟩ w hw
    cases hconn : (Session.request_connection cenv checksum pcrs ⟨none⟩ w).1 with
    | error e =>
      simp only [hconn]
      exact cape_close_empties _ _ c hc hm
    | ok u2 =>
      simp only [hconn]
      obtain ⟨d, hd2, hm2⟩ :=
        request_invocation_socketsMatch ienv sd hooks us args kwargs _ _ c hc hm
      exact cape_close_empties _ _ d hd2 hm2

/-- C8 (witness): a concrete successful run from the fresh client ends
    closed with no open socket. -/
theorem C8_witness :
    (Session.cape_run (.ok ()) Fixtures.connQw Fixtures.invokeEnv0 Fixtures.sd0 none none
      false false [Session.PyVal.bytesVal [1]] [] ⟨none⟩ Fixtures.w0).2.1.ctx = none ∧
    (Session.cape_run (.ok ()) Fixtures.connQw Fixtures.invokeEnv0 Fixtures.sd0 none none
      false false [Session.PyVal.bytesVal [1]] [] ⟨none⟩ Fixtures.w0).2.2.openSockets = [] :=
  C8_run_composition_closes (.ok ()) Fixtures.connQw Fixtures.invokeEnv0 Fixtures.sd0
    none none false false [Session.PyVal.bytesVal [1]] [] Fixtures.w0 rfl

/-- C10: a string identifier that is not a path to an existing file is
    interpreted as a function name exactly when splitting on the slash
    yields two parts (yielding a name reference with no id), otherwise as a
    function id exactly when it has 22 characters (yielding an id reference
    with no name), and every other string — as well as an identifier of
    unrecognized type — raises ValueError. -/
theorem C10_function_identifier_dispatch (s : Str) (chk : Option Str) :
    ((PyStr.splitOn '/' s).length = 2 →
      ∃ u fn, PyStr.splitOn '/' s = [u, fn] ∧
        FuncRef.cape_function (.str s none) chk = .ok ⟨none, some u, some fn, chk⟩) ∧
    ((PyStr.splitOn '/' s).length ≠ 2 → s.length = 22 →
      FuncRef.cape_function (.str s none) chk = .ok ⟨some s, none, none, chk⟩) ∧
    ((PyStr.splitOn '/' s).length ≠ 2 → s.length ≠ 22 →
      FuncRef.cape_function (.str s none) chk = .error .valueError) ∧
    FuncRef.cape_function .unknownType chk = .error .valueError := by
  refine ⟨fun h2 => ?_, fun hn2 h22 => ?_, fun hn2 hn22 => ?_, rfl⟩
  · match hsp : PyStr.splitOn '/' s with
    | [u, fn] =>
      refine ⟨u, fn, rfl, ?_⟩
      simp [FuncRef.cape_function, hsp, FuncRef.functionRefInit]
    | [] => rw [hsp] at h2; simp at h2
    | [a] => rw [hsp] at h2; simp at h2
    | a :: b :: c :: rest => rw [hsp] at h2; simp at h2
  · simp [FuncRef.cape_function, hn2, h22, FuncRef.functionRefInit]
  · simp [FuncRef.cape_function, hn2, hn22]

/-- C10 (witness): the dispatch evaluated on a two-part name, a
    22-character id, and a 3-character string. -/
theorem C10_witness :
    FuncRef.cape_function (.str ('a' :: 'b' :: '/' :: 'c' :: []) none) none =
      .ok ⟨none, some ['a', 'b'], some ['c'], none⟩ ∧
    FuncRef.cape_function
      (.str ('m' :: 'H' :: 'w' :: 's' :: 'Z' :: '9' :: 'B' :: 'h' :: '5' :: 'c' :: 'K' ::
        '4' :: 'B' :: 'z' :: '8' :: 'u' :: 't' :: 'H' :: 'j' :: 'd' :: 'h' :: 'y' :: [])
        none) none =
      .ok ⟨some ('m' :: 'H' :: 'w' :: 's' :: 'Z' :: '9' :: 'B' :: 'h' :: '5' :: 'c' :: 'K' ::
        '4' :: 'B' :: 'z' :: '8' :: 'u' :: 't' :: 'H' :: 'j' :: 'd' :: 'h' :: 'y' :: []),
        none, none, none⟩ ∧
    FuncRef.cape_function (.str ('a' :: 'b' :: 'c' :: []) none) none =
      .error .valueError := by
  refine ⟨?_, ?_, ?_⟩
  · obtain ⟨u, fn, hsp, hres⟩ :=
      (C10_function_identifier_dispatch ('a' :: 'b' :: '/' :: 'c' :: []) none).1 (by decide)
    have hu : u = ['a', 'b'] := by
      have := hsp
      simp [PyStr.splitOn] at this
      exact this.1.symm
    have hfn : fn = ['c'] := by
      have := hsp
      simp [PyStr.splitOn] at this
      exact this.2.symm
    rw [hu, hfn] at hres
    exact hres
  · exact (C10_function_identifier_dispatch _ none).2.1 (by decide) (by decide)
  · exact (C10_function_identifier_dispatch _ none).2.2.1 (by decide) (by decide)
